import Mathlib

/-!
Formal model of the PMO MCP server (`mcp_server.py`): sprint metrics
aggregation (`analyze_sprint_metrics`), paginated issue fetching
(`get_sprint_issues`), the Confluence page update
(`update_confluence_document`) and the MCP tool dispatch endpoint
(`execute_tool`).

Modelling conventions:
- outbound HTTP is modelled by explicit environments whose entries are
  `Except`-valued results of each call (a `raise_for_status` failure and a
  transport failure are both a `ReqErr`);
- Python exceptions escaping a function are `Except PyErr`;
- Python dicts used as counters are insertion-ordered association lists
  (`List (String × Nat)`), updated exactly like `d[k] = d.get(k, 0) + 1`;
- JSON numbers (story points) are `Rat` (exact arithmetic stands in for
  Python float arithmetic);
- a JSON field read with `.get` is an `Option`; a field read by direct
  indexing is a plain field of the record. The `assignee` field keeps the
  three-way distinction the code is sensitive to: key absent, key present
  with JSON null, or an object with an optional `displayName`.
-/

/-- Equality of `Except` results is decidable when it is on both sides. -/
instance {ε α : Type} [DecidableEq ε] [DecidableEq α] : DecidableEq (Except ε α) := fun a b =>
  match a, b with
  | .ok a, .ok b => decidable_of_iff (a = b) (by simp)
  | .error a, .error b => decidable_of_iff (a = b) (by simp)
  | .ok _, .error _ => isFalse (by simp)
  | .error _, .ok _ => isFalse (by simp)

/-- A transport/protocol error of an outbound call
(`requests.exceptions.RequestException`, message = `str(e)`). -/
structure ReqErr where
  msg : String
  deriving DecidableEq

/-- A Python exception that escapes a modelled function: `AttributeError`
(from `None.get(...)`) or `KeyError` (missing dict key on direct indexing). -/
inductive PyErr where
  | attributeError
  | keyError
  deriving DecidableEq

/-- The JSON value stored under `fields.assignee` of an issue: key absent,
key present with JSON null, or an object with an optional `displayName`. -/
inductive AssigneeField where
  | absent
  | null
  | obj (displayName : Option String)
  deriving DecidableEq

/-- An issue as consumed by the aggregator. `status` and `issuetype` model
`issue["fields"]["status"]["name"]` and `issue["fields"]["issuetype"]["name"]`
(read by direct indexing, so modelled as required fields);
`customfield_10016` (story points) is read with `.get(..., 0) or 0`, so it is
optional and `none` covers both an absent key and JSON null / zero. -/
structure Issue where
  status : String
  issuetype : String
  assignee : AssigneeField
  customfield_10016 : Option Rat
  deriving DecidableEq

/-- Sprint data as consumed by the aggregator: only `startDate` and
`endDate` are read (with `.get`, hence optional). The sprint-fetch outcome
itself (`get_sprint_data`) is modelled as `Option SprintData`, `none`
standing for a failed (or falsy) fetch. -/
structure SprintData where
  startDate : Option String
  endDate : Option String
  deriving DecidableEq

/-- The `story_points` sub-dict of the metrics. -/
structure StoryPoints where
  total : Rat
  completed : Rat
  deriving DecidableEq

/-- The `sprint_dates` sub-dict of the metrics. -/
structure SprintDates where
  start_date : Option String
  end_date : Option String
  deriving DecidableEq

/-- The metrics dict built by `analyze_sprint_metrics`. The `velocity` key
is only added by the last statement of the Python function; here it is a
field initialised to 0 and overwritten unconditionally at the end. -/
structure Metrics where
  total_issues : Nat
  issues_by_status : List (String × Nat)
  issues_by_type : List (String × Nat)
  issues_by_assignee : List (String × Nat)
  story_points : StoryPoints
  sprint_progress : Rat
  sprint_dates : SprintDates
  velocity : Rat
  deriving DecidableEq

/-- Python `d[k] = d.get(k, 0) + 1` on an insertion-ordered dict: increment
in place if the key exists, otherwise append the key with value 1. -/
def dictBump : List (String × Nat) → String → List (String × Nat)
  | [], k => [(k, 1)]
  | kv :: rest, k =>
    if kv.1 = k then (kv.1, kv.2 + 1) :: rest else kv :: dictBump rest k

/-- Python `d.get(k, 0)` on an insertion-ordered dict. -/
def dictGet : List (String × Nat) → String → Nat
  | [], _ => 0
  | kv :: rest, k => if kv.1 = k then kv.2 else dictGet rest k

/-- Sum of the values of a dict. -/
def dictValuesSum (d : List (String × Nat)) : Nat :=
  (d.map Prod.snd).sum

/-- The literal completion-status set of the code:
`['Done', 'Closed', 'Resolved']`. -/
def completionStatuses : List String :=
  ["Done", "Closed", "Resolved"]

/-- `issue['fields'].get('assignee', {}).get('displayName', 'Unassigned')`:
an absent key falls back to `{}` and then to `'Unassigned'`; a JSON null
raises `AttributeError` (`None` has no `.get`); an object yields its
`displayName` or `'Unassigned'`. -/
def resolveAssignee : AssigneeField → Except PyErr String
  | .absent => .ok "Unassigned"
  | .null => .error .attributeError
  | .obj none => .ok "Unassigned"
  | .obj (some name) => .ok name

/-- Total variant of `resolveAssignee`, agreeing with it wherever it does
not raise (used to state what a successful run computed). -/
def resolveAssigneeD : AssigneeField → String
  | .absent => "Unassigned"
  | .null => "Unassigned"
  | .obj none => "Unassigned"
  | .obj (some name) => name

/-- The story-points value of an issue as the code reads it:
`.get('customfield_10016', 0) or 0`. -/
def estD (issue : Issue) : Rat :=
  issue.customfield_10016.getD 0

/-- The body of the `for issue in issues` loop of `analyze_sprint_metrics`,
in source order: status count, type count, assignee count (the only step
that can raise), story-point total, story-point completed. -/
def analyzeIssue (metrics : Metrics) (issue : Issue) : Except PyErr Metrics :=
  let m1 := { metrics with issues_by_status := dictBump metrics.issues_by_status issue.status }
  let m2 := { m1 with issues_by_type := dictBump m1.issues_by_type issue.issuetype }
  match resolveAssignee issue.assignee with
  | .error e => .error e
  | .ok assignee =>
    let m3 := { m2 with issues_by_assignee := dictBump m2.issues_by_assignee assignee }
    let story_points := estD issue
    let sp : StoryPoints := {
      total := m3.story_points.total + story_points
      completed :=
        if issue.status ∈ completionStatuses then
          m3.story_points.completed + story_points
        else m3.story_points.completed }
    .ok { m3 with story_points := sp }

/-- Pure version of `analyzeIssue` (uses `resolveAssigneeD`); equal to the
`.ok` result whenever `analyzeIssue` does not raise. -/
def analyzeIssueP (metrics : Metrics) (issue : Issue) : Metrics :=
  let m1 := { metrics with issues_by_status := dictBump metrics.issues_by_status issue.status }
  let m2 := { m1 with issues_by_type := dictBump m1.issues_by_type issue.issuetype }
  let m3 := { m2 with issues_by_assignee := dictBump m2.issues_by_assignee (resolveAssigneeD issue.assignee) }
  let story_points := estD issue
  let sp : StoryPoints := {
    total := m3.story_points.total + story_points
    completed :=
      if issue.status ∈ completionStatuses then
        m3.story_points.completed + story_points
      else m3.story_points.completed }
  { m3 with story_points := sp }

/-- The initial `metrics = {...}` dict of `analyze_sprint_metrics`. -/
def initMetrics (issues : List Issue) (sprint_data : SprintData) : Metrics := {
  total_issues := issues.length
  issues_by_status := []
  issues_by_type := []
  issues_by_assignee := []
  story_points := { total := 0, completed := 0 }
  sprint_progress := 0
  sprint_dates := { start_date := sprint_data.startDate, end_date := sprint_data.endDate }
  velocity := 0 }

/-- `analyze_sprint_metrics(issues, sprint_data)`: initialise the metrics
dict, run the per-issue loop (which may raise `AttributeError`), then set
`sprint_progress` when the total is strictly positive and finally the
`velocity` key. -/
def analyze_sprint_metrics (issues : List Issue) (sprint_data : SprintData) :
    Except PyErr Metrics :=
  let metrics : Metrics := initMetrics issues sprint_data
  match issues.foldlM analyzeIssue metrics with
  | .error e => .error e
  | .ok m =>
    let sprint_progress :=
      if m.story_points.total > 0 then
        m.story_points.completed / m.story_points.total * 100
      else m.sprint_progress
    .ok { m with sprint_progress := sprint_progress, velocity := m.story_points.completed }

/-- The response of one page request of `get_sprint_issues`: either the
parsed issue list of the page (an absent or empty `issues` key both read
back as the empty list), or a transport / non-2xx error. -/
inductive PageResp where
  | ok (issues : List Issue)
  | err (e : ReqErr)

/-- The fixed `fields` query parameter of every page request. -/
def jiraFields : String :=
  "summary,status,issuetype,priority,assignee,created,updated,resolutiondate,customfield_10016"

/-- The query parameters of one page request. -/
structure PageReq where
  startAt : Nat
  maxResults : Nat
  fields : String
  deriving DecidableEq

/-- The `while True` pagination loop of `get_sprint_issues`, with the page
source as an explicit function from the requested `startAt` offset to the
response, and explicit fuel standing for the (unbounded) iteration count:
`none` means the loop would still be running after `fuel` requests. Each
iteration records its request, then either aborts with `[]` on a transport
error (the `except` branch of the Python code returns a fresh empty list),
stops on an empty page (returning the accumulator), stops on a short page
(returning accumulator plus page), or recurses with `start_at += 50`. -/
def get_sprint_issues_loop (src : Nat → PageResp) :
    Nat → Nat → List Issue → List PageReq → Option (List PageReq × List Issue)
  | 0, _, _, _ => none
  | fuel + 1, start_at, all_issues, reqs =>
    let reqs := reqs ++ [{ startAt := start_at, maxResults := 50, fields := jiraFields }]
    match src start_at with
    | .err _ => some (reqs, [])
    | .ok issues =>
      if issues.isEmpty then some (reqs, all_issues)
      else if issues.length < 50 then some (reqs, all_issues ++ issues)
      else get_sprint_issues_loop src fuel (start_at + 50) (all_issues ++ issues) reqs

/-- `get_sprint_issues(sprint_id)`: paginate from offset 0 with page size
50, returning the requests issued and the resulting issue list. -/
def get_sprint_issues (src : Nat → PageResp) (fuel : Nat) :
    Option (List PageReq × List Issue) :=
  get_sprint_issues_loop src fuel 0 [] []

/-- A page source backed by a finite list of pages: the request at offset
`startAt` is answered with page number `startAt / 50`, and requests past
the end of the list get an empty page. -/
def pagesSrc (pages : List (List Issue)) : Nat → PageResp :=
  fun start_at => .ok (pages.getD (start_at / 50) [])

/-- The Confluence page data extracted from the GET response:
`page_data['version']['number']` and `page_data['title']` (read by direct
indexing, so modelled as required fields). -/
structure PageData where
  version : Nat
  title : String
  deriving DecidableEq

/-- The JSON body of the PUT request issued by `update_confluence_document`
(`body.storage` flattened into `body_value` / `representation`). -/
structure PutContent where
  type : String
  title : String
  version : Nat
  body_value : String
  representation : String
  deriving DecidableEq

/-- One outbound Confluence request, as recorded in the request trace. -/
inductive TraceItem where
  | getReq
  | putReq (content : PutContent)
  deriving DecidableEq

/-- The Confluence transport, as an explicit environment: the outcome of
the GET of the page, and the outcome of a PUT as a function of its body. -/
structure ConfluenceEnv where
  getPage : Except ReqErr PageData
  putPage : PutContent → Except ReqErr Unit

/-- The `sprint` sub-dict of the `sprint_insights` request value; each
field is optional because the value is caller supplied. -/
structure InsightsSprint where
  id : Option String
  name : Option String
  deriving DecidableEq

/-- The `metrics.sprint_dates` sub-dict of the insights value. -/
structure InsightsDates where
  start_date : Option String
  end_date : Option String
  deriving DecidableEq

/-- The `metrics.story_points` sub-dict of the insights value. -/
structure InsightsPoints where
  total : Option Rat
  completed : Option Rat
  deriving DecidableEq

/-- The `metrics` sub-dict of the insights value. -/
structure InsightsMetrics where
  sprint_dates : Option InsightsDates
  total_issues : Option Nat
  story_points : Option InsightsPoints
  sprint_progress : Option Rat
  velocity : Option Rat
  issues_by_status : Option (List (String × Nat))
  issues_by_type : Option (List (String × Nat))
  issues_by_assignee : Option (List (String × Nat))
  deriving DecidableEq

/-- The caller-supplied `sprint_insights` value, restricted to the keys the
template reads. Only key presence is modelled (a present-but-null leaf is
not distinguished from a string, except for `assignee` above where the
code is sensitive to it). -/
structure SprintInsights where
  sprint : Option InsightsSprint
  metrics : Option InsightsMetrics
  deriving DecidableEq

/-- Python dict indexing `d[k]`: raises `KeyError` when the key is absent. -/
def lookupK {a : Type} : Option a → Except PyErr a
  | some v => .ok v
  | none => .error .keyError

/-- `generate_list_items(data_dict)`: one `<li>` item per dict entry. -/
def generate_list_items (data_dict : List (String × Nat)) : String :=
  String.join (data_dict.map fun kv =>
    "<li><strong>" ++ kv.1 ++ ":</strong> " ++ toString kv.2 ++ "</li>")

/-- Two-decimal rendering of a rational, standing in for the Python format
spec `:.2f` (display only; no claim depends on this string). -/
def formatRat2 (q : Rat) : String :=
  let n : Int := (q * 100 + 1 / 2).floor
  let ip := n / 100
  let fp := (n % 100).natAbs
  toString ip ++ "." ++ (if fp < 10 then "0" else "") ++ toString fp

/-- The f-string that builds the new page body, with each interpolated
dict lookup performed in textual order; the first missing key raises
`KeyError`. Whitespace of the Python template is condensed. -/
def renderBody (today : String) (sprint_insights : SprintInsights) : Except PyErr String := do
  let sprint <- lookupK sprint_insights.sprint
  let sid <- lookupK sprint.id
  let sname <- lookupK sprint.name
  let metrics <- lookupK sprint_insights.metrics
  let dates <- lookupK metrics.sprint_dates
  let start_date <- lookupK dates.start_date
  let end_date <- lookupK dates.end_date
  let total_issues <- lookupK metrics.total_issues
  let points <- lookupK metrics.story_points
  let points_total <- lookupK points.total
  let points_completed <- lookupK points.completed
  let progress <- lookupK metrics.sprint_progress
  let velocity <- lookupK metrics.velocity
  let by_status <- lookupK metrics.issues_by_status
  let by_type <- lookupK metrics.issues_by_type
  let by_assignee <- lookupK metrics.issues_by_assignee
  pure ("<h1>Sprint Insights - Actualizado el " ++ today ++ "</h1>" ++
    "<h2>Resumen</h2>" ++
    "<p>ID del Sprint: " ++ sid ++ "</p>" ++
    "<p>Nombre del Sprint: " ++ sname ++ "</p>" ++
    "<p>Fecha de inicio: " ++ start_date ++ "</p>" ++
    "<p>Fecha de finalizacion: " ++ end_date ++ "</p>" ++
    "<h2>Metricas</h2>" ++
    "<p>Total de issues: " ++ toString total_issues ++ "</p>" ++
    "<p>Story points totales: " ++ toString points_total ++ "</p>" ++
    "<p>Story points completados: " ++ toString points_completed ++ "</p>" ++
    "<p>Progreso del sprint: " ++ formatRat2 progress ++ "%</p>" ++
    "<p>Velocidad: " ++ toString velocity ++ "</p>" ++
    "<h2>Distribucion por estado</h2><ul>" ++ generate_list_items by_status ++ "</ul>" ++
    "<h2>Distribucion por tipo</h2><ul>" ++ generate_list_items by_type ++ "</ul>" ++
    "<h2>Distribucion por asignado</h2><ul>" ++ generate_list_items by_assignee ++ "</ul>")

/-- The updated-content dict sent by the PUT: same title, incremented
version, storage representation. -/
def mkContent (page_data : PageData) (body : String) : PutContent := {
  type := "page"
  title := page_data.title
  version := page_data.version + 1
  body_value := body
  representation := "storage" }

/-- The result dict of `update_confluence_document`; `new_version` models
the key that is present only in the success dict. -/
structure UpdateResult where
  success : Bool
  message : String
  page_id : String
  new_version : Option Nat
  deriving DecidableEq

/-- `update_confluence_document(page_id, sprint_insights)`: GET the page
(a `RequestException` is caught and turned into a failure dict), render
the new body (a `KeyError` here escapes the function: the `except` clause
only catches `RequestException`), then PUT the content with version + 1
(again catching only `RequestException`). The second component is the
trace of outbound requests. -/
def update_confluence_document (env : ConfluenceEnv) (today : String)
    (page_id : String) (sprint_insights : SprintInsights) :
    Except PyErr UpdateResult × List TraceItem :=
  match env.getPage with
  | .error e =>
    (.ok { success := false
           message := "Error al actualizar el documento: " ++ e.msg
           page_id := page_id
           new_version := none },
     [.getReq])
  | .ok page_data =>
    match renderBody today sprint_insights with
    | .error pe => (.error pe, [.getReq])
    | .ok body =>
      let content := mkContent page_data body
      match env.putPage content with
      | .error e =>
        (.ok { success := false
               message := "Error al actualizar el documento: " ++ e.msg
               page_id := page_id
               new_version := none },
         [.getReq, .putReq content])
      | .ok _ =>
        (.ok { success := true
               message := "Documento de Confluence actualizado correctamente"
               page_id := page_id
               new_version := some (page_data.version + 1) },
         [.getReq, .putReq content])

/-- The `input` value of an `/mcp/execute` request, restricted to the keys
the two tools read; each key optional because caller supplied. -/
structure ToolInput where
  sprint_id : Option String
  confluence_page_id : Option String
  content : Option SprintInsights
  deriving DecidableEq

/-- `data.get('input', {})` falls back to an empty dict. -/
def emptyInput : ToolInput :=
  { sprint_id := none, confluence_page_id := none, content := none }

/-- An `/mcp/execute` request body (assumed to be a JSON object; `name`
and `input` read with `.get`). -/
structure McpRequest where
  name : Option String
  input : Option ToolInput
  deriving DecidableEq

/-- A JSON response of `/mcp/execute`: either the error envelope
`{error: {code, message}}` or one of the two `output` payloads. -/
inductive McpResponse where
  | errorResp (code : String) (message : String)
  | outputCtx (sprint : SprintData) (issues : List Issue) (metrics : Metrics)
  | outputUpdate (result : UpdateResult)
  deriving DecidableEq

/-- `str(e)` of a modelled Python exception, as embedded in the
`internal_error` message. -/
def pyErrStr : PyErr → String
  | .attributeError => "AttributeError"
  | .keyError => "KeyError"

/-- The outbound world of the server, as one explicit environment:
the outcome of `get_sprint_data` (`none` covers a failed or falsy fetch),
the page source of `get_sprint_issues`, the Confluence transport, and the
current date. -/
structure ServerEnv where
  sprint_data : Option SprintData
  issueSrc : Nat → PageResp
  confluence : ConfluenceEnv
  today : String

/-- The `/mcp/execute` handler `execute_tool`, paired with the HTTP status
code. Falsy checks follow Python: a missing name and an empty-string name
are both rejected as `invalid_request`; missing (or empty-string) required
input fields are rejected as `invalid_input`. An exception raised by
`analyze_sprint_metrics` or `update_confluence_document` is caught by the
`try` of the handler and becomes a 500 `internal_error`. The result is
`none` only when the pagination loop exceeds its fuel. -/
def execute_tool (env : ServerEnv) (fuel : Nat) (req : McpRequest) :
    Option (Nat × McpResponse) :=
  match req.name with
  | none => some (400, .errorResp "invalid_request" "Se requiere el nombre de la herramienta")
  | some tool_name =>
    if tool_name = "" then
      some (400, .errorResp "invalid_request" "Se requiere el nombre de la herramienta")
    else if tool_name = "get_sprint_info" then
      let tool_input := req.input.getD emptyInput
      match tool_input.sprint_id with
      | none => some (400, .errorResp "invalid_input" "Se requiere el ID del sprint")
      | some sprint_id =>
        if sprint_id = "" then
          some (400, .errorResp "invalid_input" "Se requiere el ID del sprint")
        else
          match env.sprint_data with
          | none => some (404, .errorResp "resource_not_found" "No se pudo obtener la información del sprint")
          | some sprint_data =>
            match get_sprint_issues env.issueSrc fuel with
            | none => none
            | some (_, sprint_issues) =>
              match analyze_sprint_metrics sprint_issues sprint_data with
              | .error e => some (500, .errorResp "internal_error" ("Error interno: " ++ pyErrStr e))
              | .ok sprint_metrics => some (200, .outputCtx sprint_data sprint_issues sprint_metrics)
    else if tool_name = "update_confluence_page" then
      let tool_input := req.input.getD emptyInput
      match tool_input.sprint_id, tool_input.confluence_page_id, tool_input.content with
      | some sprint_id, some confluence_page_id, some content =>
        if sprint_id = "" ∨ confluence_page_id = "" then
          some (400, .errorResp "invalid_input" "Se requieren sprint_id, confluence_page_id y content")
        else
          match update_confluence_document env.confluence env.today confluence_page_id content with
          | (.error e, _) => some (500, .errorResp "internal_error" ("Error interno: " ++ pyErrStr e))
          | (.ok result, _) => some (200, .outputUpdate result)
      | _, _, _ =>
        some (400, .errorResp "invalid_input" "Se requieren sprint_id, confluence_page_id y content")
    else
      some (404, .errorResp "unknown_tool" ("Herramienta desconocida: " ++ tool_name))

/-! Concrete instances used by the witnesses and counterexamples. -/

/-- A sample sprint. -/
def exSprint : SprintData := { startDate := some "2024-01-01", endDate := some "2024-01-15" }

/-- A completed bug with an assignee and 3 story points. -/
def exIssueDoneA : Issue :=
  { status := "Done", issuetype := "Bug", assignee := .obj (some "A"), customfield_10016 := some 3 }

/-- An open bug whose `assignee` key is present with JSON null, 2 points. -/
def exIssueOpenNull : Issue :=
  { status := "Open", issuetype := "Bug", assignee := .null, customfield_10016 := some 2 }

/-- An open bug whose `assignee` key is absent, 2 points. -/
def exIssueOpenAbsent : Issue :=
  { status := "Open", issuetype := "Bug", assignee := .absent, customfield_10016 := some 2 }

/-- An open unassigned task with no story-point estimate. -/
def exIssueOpenTask : Issue :=
  { status := "Open", issuetype := "Task", assignee := .absent, customfield_10016 := none }

/-- An open bug with a negative story-point estimate. -/
def exIssueNegOpen : Issue :=
  { status := "Open", issuetype := "Bug", assignee := .absent, customfield_10016 := some (-1) }

/-- A completed bug with a negative story-point estimate. -/
def exIssueNegDone : Issue :=
  { status := "Done", issuetype := "Bug", assignee := .absent, customfield_10016 := some (-1) }

/-- The metrics of `[exIssueDoneA, exIssueOpenAbsent]` under `exSprint`. -/
def exMetrics2 : Metrics := {
  total_issues := 2
  issues_by_status := [("Done", 1), ("Open", 1)]
  issues_by_type := [("Bug", 2)]
  issues_by_assignee := [("A", 1), ("Unassigned", 1)]
  story_points := { total := 5, completed := 3 }
  sprint_progress := 60
  sprint_dates := { start_date := some "2024-01-01", end_date := some "2024-01-15" }
  velocity := 3 }

/-- The metrics of `[exIssueNegOpen]` under `exSprint`. -/
def exMetricsNegOpen : Metrics := {
  total_issues := 1
  issues_by_status := [("Open", 1)]
  issues_by_type := [("Bug", 1)]
  issues_by_assignee := [("Unassigned", 1)]
  story_points := { total := -1, completed := 0 }
  sprint_progress := 0
  sprint_dates := { start_date := some "2024-01-01", end_date := some "2024-01-15" }
  velocity := 0 }

/-- The metrics of `[exIssueNegDone]` under `exSprint`. -/
def exMetricsNegDone : Metrics := {
  total_issues := 1
  issues_by_status := [("Done", 1)]
  issues_by_type := [("Bug", 1)]
  issues_by_assignee := [("Unassigned", 1)]
  story_points := { total := -1, completed := -1 }
  sprint_progress := 0
  sprint_dates := { start_date := some "2024-01-01", end_date := some "2024-01-15" }
  velocity := -1 }

/-- The metrics of `[exIssueDoneA, exIssueOpenTask]` under `exSprint`. -/
def exMetricsPermA : Metrics := {
  total_issues := 2
  issues_by_status := [("Done", 1), ("Open", 1)]
  issues_by_type := [("Bug", 1), ("Task", 1)]
  issues_by_assignee := [("A", 1), ("Unassigned", 1)]
  story_points := { total := 3, completed := 3 }
  sprint_progress := 100
  sprint_dates := { start_date := some "2024-01-01", end_date := some "2024-01-15" }
  velocity := 3 }

/-- The metrics of `[exIssueOpenTask, exIssueDoneA]` under `exSprint`. -/
def exMetricsPermB : Metrics := {
  total_issues := 2
  issues_by_status := [("Open", 1), ("Done", 1)]
  issues_by_type := [("Task", 1), ("Bug", 1)]
  issues_by_assignee := [("Unassigned", 1), ("A", 1)]
  story_points := { total := 3, completed := 3 }
  sprint_progress := 100
  sprint_dates := { start_date := some "2024-01-01", end_date := some "2024-01-15" }
  velocity := 3 }

/-- A page source whose first page is full and whose second request fails. -/
def exErrSrc : Nat → PageResp :=
  fun start_at =>
    if start_at = 0 then .ok (List.replicate 50 exIssueOpenAbsent)
    else .err { msg := "connection error" }

/-- The current version of the sample Confluence page. -/
def exPage4 : PageData := { version := 4, title := "Sprint" }

/-- A Confluence transport where both GET and PUT succeed. -/
def exConfGetOk : ConfluenceEnv := { getPage := .ok exPage4, putPage := fun _ => .ok () }

/-- A Confluence transport where the GET fails. -/
def exConfGetFail : ConfluenceEnv :=
  { getPage := .error { msg := "getfail" }, putPage := fun _ => .ok () }

/-- A Confluence transport where the GET succeeds and the PUT fails. -/
def exConfPutFail : ConfluenceEnv :=
  { getPage := .ok exPage4, putPage := fun _ => .error { msg := "putfail" } }

/-- An insights value with none of the expected keys. -/
def exInsightsEmpty : SprintInsights := { sprint := none, metrics := none }

/-- An insights value with every key the template reads. -/
def exInsightsFull : SprintInsights := {
  sprint := some { id := some "SP1", name := some "Sprint 1" }
  metrics := some {
    sprint_dates := some { start_date := some "2024-01-01", end_date := some "2024-01-15" }
    total_issues := some 2
    story_points := some { total := some 5, completed := some 3 }
    sprint_progress := some 60
    velocity := some 3
    issues_by_status := some [("Done", 1), ("Open", 1)]
    issues_by_type := some [("Bug", 2)]
    issues_by_assignee := some [("A", 1), ("Unassigned", 1)] } }

/-- The success result of updating `exPage4` as page `12345`. -/
def exSuccessResult : UpdateResult := {
  success := true
  message := "Documento de Confluence actualizado correctamente"
  page_id := "12345"
  new_version := some 5 }

/-- A server environment whose sprint fetch fails. -/
def exEnvMin : ServerEnv :=
  { sprint_data := none, issueSrc := fun _ => .ok [], confluence := exConfGetFail,
    today := "2024-06-01" }

/-- Order-insensitive equality of two metrics summaries: same counts, same
counter maps as maps (same lookups and same key sets), same sums, progress,
velocity and dates. -/
def MetricsEquiv (m m2 : Metrics) : Prop :=
  m.total_issues = m2.total_issues ∧
  (∀ k, dictGet m.issues_by_status k = dictGet m2.issues_by_status k) ∧
  (∀ k, k ∈ m.issues_by_status.map Prod.fst ↔ k ∈ m2.issues_by_status.map Prod.fst) ∧
  (∀ k, dictGet m.issues_by_type k = dictGet m2.issues_by_type k) ∧
  (∀ k, k ∈ m.issues_by_type.map Prod.fst ↔ k ∈ m2.issues_by_type.map Prod.fst) ∧
  (∀ k, dictGet m.issues_by_assignee k = dictGet m2.issues_by_assignee k) ∧
  (∀ k, k ∈ m.issues_by_assignee.map Prod.fst ↔ k ∈ m2.issues_by_assignee.map Prod.fst) ∧
  m.story_points.total = m2.story_points.total ∧
  m.story_points.completed = m2.story_points.completed ∧
  m.sprint_progress = m2.sprint_progress ∧
  m.velocity = m2.velocity ∧
  m.sprint_dates = m2.sprint_dates

/-! Helper lemmas about the dict counters. -/

theorem dictGet_dictBump (d : List (String × Nat)) (k k' : String) :
    dictGet (dictBump d k) k' = dictGet d k' + (if k = k' then 1 else 0) := by
  induction d with
  | nil =>
    by_cases h : k = k' <;> simp [dictBump, dictGet, h]
  | cons kv rest ih =>
    rcases eq_or_ne kv.1 k with h1 | h1
    · subst h1
      rcases eq_or_ne kv.1 k' with h2 | h2 <;>
        simp [dictBump, dictGet, h2]
    · rcases eq_or_ne kv.1 k' with h2 | h2
      · have h3 : k ≠ k' := fun hc => h1 (h2.trans hc.symm)
        simp only [dictBump, if_neg h1]
        simp [dictGet, h2, h3]
      · simp [dictBump, dictGet, if_neg h1, h2, ih]

theorem dictValuesSum_dictBump (d : List (String × Nat)) (k : String) :
    dictValuesSum (dictBump d k) = dictValuesSum d + 1 := by
  induction d with
  | nil => simp [dictBump, dictValuesSum]
  | cons kv rest ih =>
    by_cases h : kv.1 = k <;> simp [dictBump, dictValuesSum, h] <;>
      simp [dictValuesSum] at ih <;> omega

theorem dictBump_pos (d : List (String × Nat)) (k : String)
    (h : ∀ kv ∈ d, 0 < kv.2) : ∀ kv ∈ dictBump d k, 0 < kv.2 := by
  induction d with
  | nil => simp [dictBump]
  | cons kv rest ih =>
    by_cases h1 : kv.1 = k
    · simp only [dictBump, h1, if_pos rfl]
      intro kv' hkv'
      rcases List.mem_cons.1 hkv' with h2 | h2
      · subst h2; simp
      · exact h kv' (List.mem_cons_of_mem _ h2)
    · simp only [dictBump, h1, if_neg h1]
      intro kv' hkv'
      rcases List.mem_cons.1 hkv' with h2 | h2
      · subst h2; exact h kv' (List.mem_cons_self _ _)
      · exact ih (fun kv'' hkv'' => h kv'' (List.mem_cons_of_mem _ hkv'')) kv' h2

theorem dictGet_pos_iff_mem (d : List (String × Nat)) (k : String)
    (h : ∀ kv ∈ d, 0 < kv.2) : 0 < dictGet d k ↔ k ∈ d.map Prod.fst := by
  induction d with
  | nil => simp [dictGet]
  | cons kv rest ih =>
    by_cases h1 : kv.1 = k
    · have := h kv (List.mem_cons_self _ _)
      simp [dictGet, h1, this]
    · have hne : ¬ k = kv.1 := fun hc => h1 hc.symm
      simp only [dictGet, h1, if_neg h1, List.map_cons, List.mem_cons, hne, false_or]
      exact ih fun kv' hkv' => h kv' (List.mem_cons_of_mem _ hkv')

/-! Helper lemmas about the aggregation loop. -/

theorem resolveAssigneeD_eq {a : AssigneeField} {s : String}
    (h : resolveAssignee a = .ok s) : resolveAssigneeD a = s := by
  cases a with
  | absent => simpa [resolveAssignee, resolveAssigneeD] using h
  | null => simp [resolveAssignee] at h
  | obj d => cases d <;> simpa [resolveAssignee, resolveAssigneeD] using h

theorem analyzeIssue_ok {m x : Metrics} {i : Issue}
    (h : analyzeIssue m i = .ok x) : x = analyzeIssueP m i := by
  unfold analyzeIssue at h
  cases hr : resolveAssignee i.assignee with
  | error e => simp [hr] at h
  | ok s =>
    simp only [hr] at h
    cases h
    unfold analyzeIssueP
    rw [resolveAssigneeD_eq hr]

theorem analyzeIssue_error {m : Metrics} {i : Issue} {e : PyErr}
    (h : analyzeIssue m i = .error e) : resolveAssignee i.assignee = .error e := by
  unfold analyzeIssue at h
  cases hr : resolveAssignee i.assignee with
  | error e' => simp only [hr] at h; cases h; rfl
  | ok s => simp [hr] at h

theorem foldlM_analyze_ok :
    ∀ (issues : List Issue) (m0 m' : Metrics),
      issues.foldlM analyzeIssue m0 = .ok m' → m' = issues.foldl analyzeIssueP m0
  | [], m0, m', h => by
    simp only [List.foldlM_nil] at h
    cases h
    rfl
  | i :: is, m0, m', h => by
    rw [List.foldlM_cons] at h
    cases hstep : analyzeIssue m0 i with
    | error e =>
      rw [hstep] at h
      exact Except.noConfusion h
    | ok b =>
      rw [hstep] at h
      rw [List.foldl_cons, ← analyzeIssue_ok hstep]
      exact foldlM_analyze_ok is b m' h

theorem analyzeIssueP_total_issues (m : Metrics) (i : Issue) :
    (analyzeIssueP m i).total_issues = m.total_issues := rfl

theorem analyzeIssueP_sprint_progress (m : Metrics) (i : Issue) :
    (analyzeIssueP m i).sprint_progress = m.sprint_progress := rfl

theorem analyzeIssueP_velocity (m : Metrics) (i : Issue) :
    (analyzeIssueP m i).velocity = m.velocity := rfl

theorem analyzeIssueP_sprint_dates (m : Metrics) (i : Issue) :
    (analyzeIssueP m i).sprint_dates = m.sprint_dates := rfl

theorem analyzeIssueP_sp_total (m : Metrics) (i : Issue) :
    (analyzeIssueP m i).story_points.total = m.story_points.total + estD i := rfl

theorem analyzeIssueP_sp_completed (m : Metrics) (i : Issue) :
    (analyzeIssueP m i).story_points.completed =
      (if i.status ∈ completionStatuses then m.story_points.completed + estD i
       else m.story_points.completed) := rfl

theorem analyzeIssueP_by_status (m : Metrics) (i : Issue) :
    (analyzeIssueP m i).issues_by_status = dictBump m.issues_by_status i.status := rfl

theorem analyzeIssueP_by_type (m : Metrics) (i : Issue) :
    (analyzeIssueP m i).issues_by_type = dictBump m.issues_by_type i.issuetype := rfl

theorem analyzeIssueP_by_assignee (m : Metrics) (i : Issue) :
    (analyzeIssueP m i).issues_by_assignee =
      dictBump m.issues_by_assignee (resolveAssigneeD i.assignee) := rfl

theorem foldl_analyze_total_issues :
    ∀ (issues : List Issue) (m : Metrics),
      (issues.foldl analyzeIssueP m).total_issues = m.total_issues
  | [], _ => rfl
  | i :: is, m => by
    rw [List.foldl_cons, foldl_analyze_total_issues is, analyzeIssueP_total_issues]

theorem foldl_analyze_sprint_progress :
    ∀ (issues : List Issue) (m : Metrics),
      (issues.foldl analyzeIssueP m).sprint_progress = m.sprint_progress
  | [], _ => rfl
  | i :: is, m => by
    rw [List.foldl_cons, foldl_analyze_sprint_progress is, analyzeIssueP_sprint_progress]

theorem foldl_analyze_sprint_dates :
    ∀ (issues : List Issue) (m : Metrics),
      (issues.foldl analyzeIssueP m).sprint_dates = m.sprint_dates
  | [], _ => rfl
  | i :: is, m => by
    rw [List.foldl_cons, foldl_analyze_sprint_dates is, analyzeIssueP_sprint_dates]

theorem foldl_analyze_sp_total :
    ∀ (issues : List Issue) (m : Metrics),
      (issues.foldl analyzeIssueP m).story_points.total =
        m.story_points.total + (issues.map estD).sum
  | [], m => by simp
  | i :: is, m => by
    rw [List.foldl_cons, foldl_analyze_sp_total is, analyzeIssueP_sp_total,
      List.map_cons, List.sum_cons]
    ring

theorem foldl_analyze_sp_completed :
    ∀ (issues : List Issue) (m : Metrics),
      (issues.foldl analyzeIssueP m).story_points.completed =
        m.story_points.completed +
          ((issues.filter fun i => i.status ∈ completionStatuses).map estD).sum
  | [], m => by simp
  | i :: is, m => by
    rw [List.foldl_cons, foldl_analyze_sp_completed is, analyzeIssueP_sp_completed]
    by_cases h : i.status ∈ completionStatuses <;>
      simp [List.filter_cons, h] <;> ring

theorem foldl_analyze_by_status :
    ∀ (issues : List Issue) (m : Metrics) (k : String),
      dictGet (issues.foldl analyzeIssueP m).issues_by_status k =
        dictGet m.issues_by_status k + issues.countP (fun i => i.status = k)
  | [], m, k => by simp
  | i :: is, m, k => by
    rw [List.foldl_cons, foldl_analyze_by_status is, analyzeIssueP_by_status,
      dictGet_dictBump, List.countP_cons]
    by_cases h : i.status = k <;> simp [h] <;> omega

theorem foldl_analyze_by_type :
    ∀ (issues : List Issue) (m : Metrics) (k : String),
      dictGet (issues.foldl analyzeIssueP m).issues_by_type k =
        dictGet m.issues_by_type k + issues.countP (fun i => i.issuetype = k)
  | [], m, k => by simp
  | i :: is, m, k => by
    rw [List.foldl_cons, foldl_analyze_by_type is, analyzeIssueP_by_type,
      dictGet_dictBump, List.countP_cons]
    by_cases h : i.issuetype = k <;> simp [h] <;> omega

theorem foldl_analyze_by_assignee :
    ∀ (issues : List Issue) (m : Metrics) (k : String),
      dictGet (issues.foldl analyzeIssueP m).issues_by_assignee k =
        dictGet m.issues_by_assignee k +
          issues.countP (fun i => resolveAssigneeD i.assignee = k)
  | [], m, k => by simp
  | i :: is, m, k => by
    rw [List.foldl_cons, foldl_analyze_by_assignee is, analyzeIssueP_by_assignee,
      dictGet_dictBump, List.countP_cons]
    by_cases h : resolveAssigneeD i.assignee = k <;> simp [h] <;> omega

theorem foldl_analyze_values_status :
    ∀ (issues : List Issue) (m : Metrics),
      dictValuesSum (issues.foldl analyzeIssueP m).issues_by_status =
        dictValuesSum m.issues_by_status + issues.length
  | [], m => by simp
  | i :: is, m => by
    rw [List.foldl_cons, foldl_analyze_values_status is, analyzeIssueP_by_status,
      dictValuesSum_dictBump, List.length_cons]
    omega

theorem foldl_analyze_values_type :
    ∀ (issues : List Issue) (m : Metrics),
      dictValuesSum (issues.foldl analyzeIssueP m).issues_by_type =
        dictValuesSum m.issues_by_type + issues.length
  | [], m => by simp
  | i :: is, m => by
    rw [List.foldl_cons, foldl_analyze_values_type is, analyzeIssueP_by_type,
      dictValuesSum_dictBump, List.length_cons]
    omega

theorem foldl_analyze_values_assignee :
    ∀ (issues : List Issue) (m : Metrics),
      dictValuesSum (issues.foldl analyzeIssueP m).issues_by_assignee =
        dictValuesSum m.issues_by_assignee + issues.length
  | [], m => by simp
  | i :: is, m => by
    rw [List.foldl_cons, foldl_analyze_values_assignee is, analyzeIssueP_by_assignee,
      dictValuesSum_dictBump, List.length_cons]
    omega

theorem foldl_analyze_pos_status :
    ∀ (issues : List Issue) (m : Metrics),
      (∀ kv ∈ m.issues_by_status, 0 < kv.2) →
      ∀ kv ∈ (issues.foldl analyzeIssueP m).issues_by_status, 0 < kv.2
  | [], _, h => h
  | i :: is, m, h => by
    rw [List.foldl_cons]
    exact foldl_analyze_pos_status is _
      (by rw [analyzeIssueP_by_status]; exact dictBump_pos _ _ h)

theorem foldl_analyze_pos_type :
    ∀ (issues : List Issue) (m : Metrics),
      (∀ kv ∈ m.issues_by_type, 0 < kv.2) →
      ∀ kv ∈ (issues.foldl analyzeIssueP m).issues_by_type, 0 < kv.2
  | [], _, h => h
  | i :: is, m, h => by
    rw [List.foldl_cons]
    exact foldl_analyze_pos_type is _
      (by rw [analyzeIssueP_by_type]; exact dictBump_pos _ _ h)

theorem foldl_analyze_pos_assignee :
    ∀ (issues : List Issue) (m : Metrics),
      (∀ kv ∈ m.issues_by_assignee, 0 < kv.2) →
      ∀ kv ∈ (issues.foldl analyzeIssueP m).issues_by_assignee, 0 < kv.2
  | [], _, h => h
  | i :: is, m, h => by
    rw [List.foldl_cons]
    exact foldl_analyze_pos_assignee is _
      (by rw [analyzeIssueP_by_assignee]; exact dictBump_pos _ _ h)

/-- Characterisation of a successful `analyze_sprint_metrics` run: every
field of the resulting metrics as an order-insensitive function of the
input, plus positivity and value sums of the three counters. -/
theorem analyze_char {issues : List Issue} {s : SprintData} {m : Metrics}
    (h : analyze_sprint_metrics issues s = .ok m) :
    m.total_issues = issues.length ∧
    m.sprint_dates = { start_date := s.startDate, end_date := s.endDate } ∧
    m.story_points.total = (issues.map estD).sum ∧
    m.story_points.completed =
      ((issues.filter fun i => i.status ∈ completionStatuses).map estD).sum ∧
    m.velocity = m.story_points.completed ∧
    m.sprint_progress =
      (if m.story_points.total > 0 then
        m.story_points.completed / m.story_points.total * 100
      else 0) ∧
    (∀ k, dictGet m.issues_by_status k = issues.countP (fun i => i.status = k)) ∧
    (∀ k, dictGet m.issues_by_type k = issues.countP (fun i => i.issuetype = k)) ∧
    (∀ k, dictGet m.issues_by_assignee k =
      issues.countP (fun i => resolveAssigneeD i.assignee = k)) ∧
    (∀ kv ∈ m.issues_by_status, 0 < kv.2) ∧
    (∀ kv ∈ m.issues_by_type, 0 < kv.2) ∧
    (∀ kv ∈ m.issues_by_assignee, 0 < kv.2) ∧
    dictValuesSum m.issues_by_status = issues.length ∧
    dictValuesSum m.issues_by_type = issues.length ∧
    dictValuesSum m.issues_by_assignee = issues.length := by
  simp only [analyze_sprint_metrics] at h
  cases hf : issues.foldlM analyzeIssue (initMetrics issues s) with
  | error e => rw [hf] at h; simp at h
  | ok mf =>
    rw [hf] at h
    simp only [Except.ok.injEq] at h
    have hmf := foldlM_analyze_ok issues _ mf hf
    subst hmf
    subst h
    refine ⟨?_, ?_, ?_, ?_, ?_, ?_, ?_, ?_, ?_, ?_, ?_, ?_, ?_, ?_, ?_⟩
    · simpa [initMetrics] using foldl_analyze_total_issues issues (initMetrics issues s)
    · simpa [initMetrics] using foldl_analyze_sprint_dates issues (initMetrics issues s)
    · simpa [initMetrics] using foldl_analyze_sp_total issues (initMetrics issues s)
    · simpa [initMetrics] using foldl_analyze_sp_completed issues (initMetrics issues s)
    · rfl
    · have hsp : (issues.foldl analyzeIssueP (initMetrics issues s)).sprint_progress = 0 :=
        (foldl_analyze_sprint_progress issues (initMetrics issues s)).trans rfl
      by_cases hpos :
          (issues.foldl analyzeIssueP (initMetrics issues s)).story_points.total > 0 <;>
        simp [hpos, hsp]
    · intro k
      simpa [initMetrics, dictGet] using foldl_analyze_by_status issues (initMetrics issues s) k
    · intro k
      simpa [initMetrics, dictGet] using foldl_analyze_by_type issues (initMetrics issues s) k
    · intro k
      simpa [initMetrics, dictGet] using foldl_analyze_by_assignee issues (initMetrics issues s) k
    · exact foldl_analyze_pos_status issues (initMetrics issues s) (by simp [initMetrics])
    · exact foldl_analyze_pos_type issues (initMetrics issues s) (by simp [initMetrics])
    · exact foldl_analyze_pos_assignee issues (initMetrics issues s) (by simp [initMetrics])
    · simpa [initMetrics, dictValuesSum] using foldl_analyze_values_status issues (initMetrics issues s)
    · simpa [initMetrics, dictValuesSum] using foldl_analyze_values_type issues (initMetrics issues s)
    · simpa [initMetrics, dictValuesSum] using foldl_analyze_values_assignee issues (initMetrics issues s)

/-! Helper lemmas about the pagination loop. -/

theorem isEmpty_false_of_ne_nil {α : Type} {l : List α} (h : l ≠ []) :
    l.isEmpty = false := by
  cases l with
  | nil => exact absurd rfl h
  | cons a l => rfl

theorem get_sprint_issues_loop_reqs (src : Nat → PageResp) :
    ∀ (fuel start : Nat) (acc : List Issue) (reqs0 : List PageReq)
      (out : List PageReq × List Issue),
      get_sprint_issues_loop src fuel start acc reqs0 = some out →
      ∃ n, 1 ≤ n ∧
        out.1 = reqs0 ++ (List.range n).map
          (fun i => { startAt := start + 50 * i, maxResults := 50, fields := jiraFields }) := by
  intro fuel
  induction fuel with
  | zero => intro start acc reqs0 out h; exact absurd h (by simp [get_sprint_issues_loop])
  | succ fuel ih =>
    intro start acc reqs0 out h
    simp only [get_sprint_issues_loop] at h
    cases hsrc : src start with
    | err e =>
      rw [hsrc] at h
      simp only [Option.some.injEq] at h
      subst h
      exact ⟨1, le_refl 1, by simp [List.range_succ]⟩
    | ok p =>
      rw [hsrc] at h
      simp only [] at h
      by_cases hemp : p.isEmpty
      · rw [if_pos hemp] at h
        simp only [Option.some.injEq] at h
        subst h
        exact ⟨1, le_refl 1, by simp [List.range_succ]⟩
      · rw [if_neg hemp] at h
        by_cases hshort : p.length < 50
        · rw [if_pos hshort] at h
          simp only [Option.some.injEq] at h
          subst h
          exact ⟨1, le_refl 1, by simp [List.range_succ]⟩
        · rw [if_neg hshort] at h
          obtain ⟨n, hn, hout⟩ := ih (start + 50) (acc ++ p) _ out h
          refine ⟨n + 1, by omega, ?_⟩
          rw [hout]
          have harith : ∀ i : Nat, start + 50 * (i + 1) = start + 50 + 50 * i := by
            intro i; ring
          simp [List.range_succ_eq_map, List.map_map, Function.comp_def, harith]

theorem get_sprint_issues_loop_err (src : Nat → PageResp) (e : ReqErr) :
    ∀ (k fuel start : Nat) (acc : List Issue) (reqs0 : List PageReq),
      k < fuel →
      (∀ j, j < k → ∃ p, src (start + 50 * j) = .ok p ∧ p.length = 50) →
      src (start + 50 * k) = .err e →
      get_sprint_issues_loop src fuel start acc reqs0 =
        some (reqs0 ++ (List.range (k + 1)).map
          (fun i => { startAt := start + 50 * i, maxResults := 50, fields := jiraFields }), []) := by
  intro k
  induction k with
  | zero =>
    intro fuel start acc reqs0 hfuel hpages herr
    cases fuel with
    | zero => omega
    | succ fuel =>
      simp only [Nat.mul_zero, Nat.add_zero] at herr
      simp [get_sprint_issues_loop, herr, List.range_succ]
  | succ k ih =>
    intro fuel start acc reqs0 hfuel hpages herr
    cases fuel with
    | zero => omega
    | succ fuel =>
      obtain ⟨p, hp, hplen⟩ := hpages 0 (Nat.succ_pos k)
      simp only [Nat.mul_zero, Nat.add_zero] at hp
      have hpne : p ≠ [] := by
        intro hc; rw [hc] at hplen; simp at hplen
      have hrec := ih fuel (start + 50) (acc ++ p) (reqs0 ++
          [{ startAt := start, maxResults := 50, fields := jiraFields }])
        (by omega)
        (fun j hj => by
          obtain ⟨q, hq, hqlen⟩ := hpages (j + 1) (by omega)
          refine ⟨q, ?_, hqlen⟩
          rw [← hq]
          congr 1
          ring)
        (by rw [← herr]; congr 1; ring)
      simp only [get_sprint_issues_loop, hp, isEmpty_false_of_ne_nil hpne,
        Bool.false_eq_true, if_false, hplen, Nat.lt_irrefl, hrec]
      have harith : ∀ i : Nat, start + 50 * (i + 1) = start + 50 + 50 * i := by
        intro i; ring
      simp [List.range_succ_eq_map, List.map_map, Function.comp_def, harith]

theorem get_sprint_issues_three_pages (p1 p2 p3 : List Issue)
    (h1 : p1.length = 50) (h2 : p2.length = 50) (h3 : p3.length = 13)
    (fuel : Nat) (hf : 3 ≤ fuel) :
    get_sprint_issues (pagesSrc [p1, p2, p3]) fuel =
      some ([{ startAt := 0, maxResults := 50, fields := jiraFields },
             { startAt := 50, maxResults := 50, fields := jiraFields },
             { startAt := 100, maxResults := 50, fields := jiraFields }],
            p1 ++ p2 ++ p3) := by
  obtain ⟨f, rfl⟩ : ∃ f, fuel = f + 3 := ⟨fuel - 3, by omega⟩
  have hne1 : p1 ≠ [] := by intro hc; rw [hc] at h1; simp at h1
  have hne2 : p2 ≠ [] := by intro hc; rw [hc] at h2; simp at h2
  have hne3 : p3 ≠ [] := by intro hc; rw [hc] at h3; simp at h3
  show get_sprint_issues_loop _ (f + 3) 0 [] [] = _
  simp only [get_sprint_issues_loop, pagesSrc]
  norm_num [List.getD, isEmpty_false_of_ne_nil hne1, isEmpty_false_of_ne_nil hne2,
    isEmpty_false_of_ne_nil hne3, h1, h2, h3]

theorem get_sprint_issues_empty_first (src : Nat → PageResp)
    (h0 : src 0 = .ok []) (fuel : Nat) (hf : 1 ≤ fuel) :
    get_sprint_issues src fuel =
      some ([{ startAt := 0, maxResults := 50, fields := jiraFields }], []) := by
  obtain ⟨f, rfl⟩ : ∃ f, fuel = f + 1 := ⟨fuel - 1, by omega⟩
  show get_sprint_issues_loop _ (f + 1) 0 [] [] = _
  simp [get_sprint_issues_loop, h0]


/-! Claim theorems. -/

/-- Claim C2 (code bug): on the spec scenario, where the second issue has
status "Open", type "Bug", assignee JSON null and 2 points, the code does
not return the claimed metrics at all: `analyze_sprint_metrics` raises
`AttributeError`, because `fields.get('assignee', {})` returns `None` when
the key is present with value null, and `None.get` does not exist. -/
theorem analyze_sprint_metrics_null_assignee_raises :
    analyze_sprint_metrics [exIssueDoneA, exIssueOpenNull] exSprint =
      .error .attributeError := by
  norm_num [analyze_sprint_metrics, initMetrics, analyzeIssue, resolveAssignee, estD, dictBump,
    completionStatuses, exSprint, exIssueDoneA, exIssueOpenNull,
    List.foldlM, bind, Except.bind, pure, Except.pure]

theorem estD_filter_sum_bounds (q : Issue → Bool) :
    ∀ l : List Issue, (∀ i ∈ l, 0 ≤ estD i) →
      0 ≤ ((l.filter q).map estD).sum ∧ ((l.filter q).map estD).sum ≤ (l.map estD).sum
  | [], _ => by simp
  | i :: is, h => by
    have hi : 0 ≤ estD i := h i (List.mem_cons_self _ _)
    have ih := estD_filter_sum_bounds q is (fun j hj => h j (List.mem_cons_of_mem _ hj))
    by_cases hq : q i
    · simp only [List.filter_cons, hq, if_pos, List.map_cons, List.sum_cons]
      constructor <;> linarith [ih.1, ih.2]
    · simp only [List.filter_cons, hq, Bool.false_eq_true, if_false, List.map_cons, List.sum_cons]
      constructor <;> linarith [ih.1, ih.2]

/-- Claim C6 (amended): for every successful run, the completed story-point
sum equals the sum of estimates over exactly the issues whose status lies
in the literal set `completionStatuses`; and, provided every estimate is
nonnegative, total estimate ≥ completed estimate ≥ 0. (Unconditionally
the inequalities fail: a negative estimate makes them false, see the
counterexample.) -/
theorem analyze_sprint_metrics_completed_points (s : SprintData)
    (issues : List Issue) (m : Metrics)
    (h : analyze_sprint_metrics issues s = .ok m) :
    m.story_points.completed =
      ((issues.filter fun i => i.status ∈ completionStatuses).map estD).sum ∧
    ((∀ i ∈ issues, 0 ≤ estD i) →
      0 ≤ m.story_points.completed ∧ m.story_points.completed ≤ m.story_points.total) := by
  obtain ⟨-, -, htot, hcom, -, -, -⟩ := analyze_char h
  refine ⟨hcom, fun hnn => ?_⟩
  have hb := estD_filter_sum_bounds
    (fun i => decide (i.status ∈ completionStatuses)) issues hnn
  rw [htot, hcom]
  exact ⟨hb.1, hb.2⟩

/-- Claim C6 witness: the amended theorem applied to the two-issue scenario
with the assignee key absent. -/
theorem analyze_sprint_metrics_completed_points_witness :
    exMetrics2.story_points.completed =
      ((([exIssueDoneA, exIssueOpenAbsent].filter
          fun i => i.status ∈ completionStatuses).map estD)).sum ∧
    ((∀ i ∈ [exIssueDoneA, exIssueOpenAbsent], 0 ≤ estD i) →
      0 ≤ exMetrics2.story_points.completed ∧
      exMetrics2.story_points.completed ≤ exMetrics2.story_points.total) :=
  analyze_sprint_metrics_completed_points exSprint [exIssueDoneA, exIssueOpenAbsent] exMetrics2
    (by norm_num [analyze_sprint_metrics, initMetrics, analyzeIssue, resolveAssignee, estD,
        dictBump, completionStatuses, exSprint, exIssueDoneA, exIssueOpenAbsent, exMetrics2,
        List.foldlM, bind, Except.bind, pure, Except.pure] <;>
      simp <;> norm_num)

/-- Claim C6 counterexample: a single open issue with estimate -1 gives
total estimate -1 < 0 = completed estimate, refuting
total ≥ completed ≥ 0 as universally stated. -/
theorem analyze_sprint_metrics_points_cex :
    analyze_sprint_metrics [exIssueNegOpen] exSprint = .ok exMetricsNegOpen ∧
    ¬ exMetricsNegOpen.story_points.completed ≤ exMetricsNegOpen.story_points.total := by
  constructor
  · norm_num [analyze_sprint_metrics, initMetrics, analyzeIssue, resolveAssignee, estD,
      dictBump, completionStatuses, exSprint, exIssueNegOpen, exMetricsNegOpen,
      List.foldlM, bind, Except.bind, pure, Except.pure] <;>
      simp <;> norm_num
  · norm_num [exMetricsNegOpen]

/-- Claim C7 (amended): for every successful run, `sprint_progress` is 0
when the total estimate is ≤ 0 (in particular when it is 0) and equals
completed / total × 100 when the total is strictly positive, and
`velocity` always equals the completed estimate sum. (As stated, with
"otherwise equals completed/total × 100" for every nonzero total, the
claim fails on a negative total, see the counterexample: the code tests
`total > 0`, not `total ≠ 0`.) -/
theorem analyze_sprint_metrics_progress_velocity (s : SprintData)
    (issues : List Issue) (m : Metrics)
    (h : analyze_sprint_metrics issues s = .ok m) :
    (m.story_points.total ≤ 0 → m.sprint_progress = 0) ∧
    (0 < m.story_points.total →
      m.sprint_progress = m.story_points.completed / m.story_points.total * 100) ∧
    m.velocity = m.story_points.completed := by
  obtain ⟨-, -, -, -, hvel, hprog, -⟩ := analyze_char h
  refine ⟨fun hle => ?_, fun hpos => ?_, hvel⟩
  · rw [hprog, if_neg (by exact fun hc => absurd hle (by exact not_le.2 hc))]
  · rw [hprog, if_pos hpos]

/-- Claim C7 witness: the amended theorem applied to the two-issue scenario
(total 5, completed 3, progress 60, velocity 3). -/
theorem analyze_sprint_metrics_progress_velocity_witness :
    (exMetrics2.story_points.total ≤ 0 → exMetrics2.sprint_progress = 0) ∧
    (0 < exMetrics2.story_points.total →
      exMetrics2.sprint_progress =
        exMetrics2.story_points.completed / exMetrics2.story_points.total * 100) ∧
    exMetrics2.velocity = exMetrics2.story_points.completed :=
  analyze_sprint_metrics_progress_velocity exSprint [exIssueDoneA, exIssueOpenAbsent] exMetrics2
    (by norm_num [analyze_sprint_metrics, initMetrics, analyzeIssue, resolveAssignee, estD,
        dictBump, completionStatuses, exSprint, exIssueDoneA, exIssueOpenAbsent, exMetrics2,
        List.foldlM, bind, Except.bind, pure, Except.pure] <;>
      simp <;> norm_num)

/-- Claim C7 counterexample: a single completed issue with estimate -1
gives total -1 ≠ 0 but progress 0, not completed/total × 100 = 100. -/
theorem analyze_sprint_metrics_progress_cex :
    analyze_sprint_metrics [exIssueNegDone] exSprint = .ok exMetricsNegDone ∧
    exMetricsNegDone.story_points.total ≠ 0 ∧
    exMetricsNegDone.sprint_progress ≠
      exMetricsNegDone.story_points.completed / exMetricsNegDone.story_points.total * 100 := by
  refine ⟨?_, ?_, ?_⟩
  · norm_num [analyze_sprint_metrics, initMetrics, analyzeIssue, resolveAssignee, estD,
      dictBump, completionStatuses, exSprint, exIssueNegDone, exMetricsNegDone,
      List.foldlM, bind, Except.bind, pure, Except.pure] <;>
      simp <;> norm_num
  · norm_num [exMetricsNegDone]
  · norm_num [exMetricsNegDone]

/-- Claim C10: for every successful run, the values of each of the three
distribution counters are strictly positive and sum to `total_issues`,
which equals the length of the input sequence. -/
theorem analyze_sprint_metrics_dict_invariants (s : SprintData)
    (issues : List Issue) (m : Metrics)
    (h : analyze_sprint_metrics issues s = .ok m) :
    m.total_issues = issues.length ∧
    (∀ kv ∈ m.issues_by_status, 0 < kv.2) ∧
    dictValuesSum m.issues_by_status = m.total_issues ∧
    (∀ kv ∈ m.issues_by_type, 0 < kv.2) ∧
    dictValuesSum m.issues_by_type = m.total_issues ∧
    (∀ kv ∈ m.issues_by_assignee, 0 < kv.2) ∧
    dictValuesSum m.issues_by_assignee = m.total_issues := by
  obtain ⟨hlen, -, -, -, -, -, -, -, -, hp1, hp2, hp3, hv1, hv2, hv3⟩ := analyze_char h
  exact ⟨hlen, hp1, by rw [hv1, hlen], hp2, by rw [hv2, hlen], hp3, by rw [hv3, hlen]⟩

/-- Claim C10 witness: the invariants at the two-issue scenario. -/
theorem analyze_sprint_metrics_dict_invariants_witness :
    exMetrics2.total_issues = ([exIssueDoneA, exIssueOpenAbsent] : List Issue).length ∧
    (∀ kv ∈ exMetrics2.issues_by_status, 0 < kv.2) ∧
    dictValuesSum exMetrics2.issues_by_status = exMetrics2.total_issues ∧
    (∀ kv ∈ exMetrics2.issues_by_type, 0 < kv.2) ∧
    dictValuesSum exMetrics2.issues_by_type = exMetrics2.total_issues ∧
    (∀ kv ∈ exMetrics2.issues_by_assignee, 0 < kv.2) ∧
    dictValuesSum exMetrics2.issues_by_assignee = exMetrics2.total_issues :=
  analyze_sprint_metrics_dict_invariants exSprint [exIssueDoneA, exIssueOpenAbsent] exMetrics2
    (by norm_num [analyze_sprint_metrics, initMetrics, analyzeIssue, resolveAssignee, estD,
        dictBump, completionStatuses, exSprint, exIssueDoneA, exIssueOpenAbsent, exMetrics2,
        List.foldlM, bind, Except.bind, pure, Except.pure] <;>
      simp <;> norm_num)

/-- Claim C8: the metrics summary is invariant under permutation of the
input issues: for any two permuted inputs on which the aggregator
succeeds, the two results agree on the count, on each counter map (as a
map: same lookups and same key sets), on both sums, on progress, velocity
and dates. The result depends only on the multiset of issues. -/
theorem analyze_sprint_metrics_perm_invariant (s : SprintData)
    (issues issues2 : List Issue) (hp : issues.Perm issues2) (m m2 : Metrics)
    (h : analyze_sprint_metrics issues s = .ok m)
    (h2 : analyze_sprint_metrics issues2 s = .ok m2) :
    MetricsEquiv m m2 := by
  obtain ⟨hlen, hdates, htot, hcom, hvel, hprog, hst, hty, has,
    hpos1, hpos2, hpos3, -, -, -⟩ := analyze_char h
  obtain ⟨hlen2, hdates2, htot2, hcom2, hvel2, hprog2, hst2, hty2, has2,
    hpos12, hpos22, hpos32, -, -, -⟩ := analyze_char h2
  have hcst : ∀ k, issues.countP (fun i => i.status = k) =
      issues2.countP (fun i => i.status = k) := fun k => hp.countP_eq _
  have hcty : ∀ k, issues.countP (fun i => i.issuetype = k) =
      issues2.countP (fun i => i.issuetype = k) := fun k => hp.countP_eq _
  have hcas : ∀ k, issues.countP (fun i => resolveAssigneeD i.assignee = k) =
      issues2.countP (fun i => resolveAssigneeD i.assignee = k) := fun k => hp.countP_eq _
  have htote : m.story_points.total = m2.story_points.total := by
    rw [htot, htot2]; exact (hp.map estD).sum_eq
  have hcome : m.story_points.completed = m2.story_points.completed := by
    rw [hcom, hcom2]; exact ((hp.filter _).map estD).sum_eq
  refine ⟨by rw [hlen, hlen2]; exact hp.length_eq, ?_, ?_, ?_, ?_, ?_, ?_,
    htote, hcome, ?_, ?_, by rw [hdates, hdates2]⟩
  · intro k; rw [hst k, hst2 k, hcst k]
  · intro k
    rw [← dictGet_pos_iff_mem _ k hpos1, ← dictGet_pos_iff_mem _ k hpos12,
      hst k, hst2 k, hcst k]
  · intro k; rw [hty k, hty2 k, hcty k]
  · intro k
    rw [← dictGet_pos_iff_mem _ k hpos2, ← dictGet_pos_iff_mem _ k hpos22,
      hty k, hty2 k, hcty k]
  · intro k; rw [has k, has2 k, hcas k]
  · intro k
    rw [← dictGet_pos_iff_mem _ k hpos3, ← dictGet_pos_iff_mem _ k hpos32,
      has k, has2 k, hcas k]
  · rw [hprog, hprog2, htote, hcome]
  · rw [hvel, hvel2, hcome]

/-- Claim C8 witness: the two orders of a completed bug and an open task
yield equivalent metrics (the counter maps differ only in insertion
order). -/
theorem analyze_sprint_metrics_perm_invariant_witness :
    MetricsEquiv exMetricsPermA exMetricsPermB :=
  analyze_sprint_metrics_perm_invariant exSprint
    [exIssueDoneA, exIssueOpenTask] [exIssueOpenTask, exIssueDoneA]
    (List.Perm.swap exIssueOpenTask exIssueDoneA [])
    exMetricsPermA exMetricsPermB
    (by norm_num [analyze_sprint_metrics, initMetrics, analyzeIssue, resolveAssignee, estD,
        dictBump, completionStatuses, exSprint, exIssueDoneA, exIssueOpenTask, exMetricsPermA,
        List.foldlM, bind, Except.bind, pure, Except.pure] <;>
      simp <;> norm_num)
    (by norm_num [analyze_sprint_metrics, initMetrics, analyzeIssue, resolveAssignee, estD,
        dictBump, completionStatuses, exSprint, exIssueDoneA, exIssueOpenTask, exMetricsPermB,
        List.foldlM, bind, Except.bind, pure, Except.pure] <;>
      simp <;> norm_num)

/-- Claim C5: for every page source, `get_sprint_issues` requests pages of
size 50 starting at offset 0 (every request trace is offsets 0, 50, 100,
... with `maxResults` 50); given pages of sizes [50, 50, 13] it issues
exactly 3 page requests and returns all 113 issues in page-then-native
order; given a first page of size 0 it returns the empty sequence after
one request. -/
theorem get_sprint_issues_pagination :
    (∀ (src : Nat → PageResp) (fuel : Nat) (reqs : List PageReq) (issues : List Issue),
      get_sprint_issues src fuel = some (reqs, issues) →
      reqs = (List.range reqs.length).map
        (fun i => { startAt := 50 * i, maxResults := 50, fields := jiraFields })) ∧
    (∀ p1 p2 p3 : List Issue, p1.length = 50 → p2.length = 50 → p3.length = 13 →
      ∀ fuel : Nat, 3 ≤ fuel →
      get_sprint_issues (pagesSrc [p1, p2, p3]) fuel =
        some ([{ startAt := 0, maxResults := 50, fields := jiraFields },
               { startAt := 50, maxResults := 50, fields := jiraFields },
               { startAt := 100, maxResults := 50, fields := jiraFields }],
              p1 ++ p2 ++ p3)) ∧
    (∀ (src : Nat → PageResp) (fuel : Nat), src 0 = .ok [] → 1 ≤ fuel →
      get_sprint_issues src fuel =
        some ([{ startAt := 0, maxResults := 50, fields := jiraFields }], [])) := by
  refine ⟨?_, get_sprint_issues_three_pages, fun src fuel h0 hf =>
    get_sprint_issues_empty_first src h0 fuel hf⟩
  intro src fuel reqs issues h
  obtain ⟨n, hn, hout⟩ := get_sprint_issues_loop_reqs src fuel 0 [] [] (reqs, issues) h
  simp only [List.nil_append] at hout
  have hlen : reqs.length = n := by rw [hout]; simp
  rw [hlen, hout]
  simp

/-- Claim C5 witness: the theorem applied to three concrete pages of sizes
50, 50, 13 (113 issues in total, three requests), to the empty source, and
to the request-shape conjunct at the one-request source. -/
theorem get_sprint_issues_pagination_witness :
    get_sprint_issues
        (pagesSrc [List.replicate 50 exIssueOpenAbsent,
          List.replicate 50 exIssueDoneA, List.replicate 13 exIssueOpenTask]) 5 =
      some ([{ startAt := 0, maxResults := 50, fields := jiraFields },
             { startAt := 50, maxResults := 50, fields := jiraFields },
             { startAt := 100, maxResults := 50, fields := jiraFields }],
            List.replicate 50 exIssueOpenAbsent ++
              List.replicate 50 exIssueDoneA ++ List.replicate 13 exIssueOpenTask) ∧
    get_sprint_issues (fun _ => .ok []) 5 =
      some ([{ startAt := 0, maxResults := 50, fields := jiraFields }], []) ∧
    ([{ startAt := 0, maxResults := 50, fields := jiraFields }] : List PageReq) =
      (List.range ([{ startAt := 0, maxResults := 50, fields := jiraFields }] :
          List PageReq).length).map
        (fun i => { startAt := 50 * i, maxResults := 50, fields := jiraFields }) :=
  ⟨get_sprint_issues_pagination.2.1 _ _ _ (by simp) (by simp) (by simp) 5 (by omega),
   get_sprint_issues_pagination.2.2 _ 5 rfl (by omega),
   get_sprint_issues_pagination.1 (fun _ => .ok []) 5 _ []
     (get_sprint_issues_pagination.2.2 _ 5 rfl (by omega))⟩

/-- Claim C1 counterexample: with a full first page of 50 issues and a
transport error on the second request, `get_sprint_issues` returns the
empty sequence, not the 50 accumulated issues: the `except` branch of the
code returns a fresh `[]`, discarding the accumulator. -/
theorem get_sprint_issues_error_cex :
    get_sprint_issues exErrSrc 5 =
      some ([{ startAt := 0, maxResults := 50, fields := jiraFields },
             { startAt := 50, maxResults := 50, fields := jiraFields }], []) ∧
    List.replicate 50 exIssueOpenAbsent ≠ ([] : List Issue) := by
  constructor
  · rfl
  · simp

/-- Claim C1 (amended): when a transport error occurs on the request after
k full pages, `get_sprint_issues` abandons pagination and returns the
empty sequence, discarding the issues accumulated so far (the claimed
behaviour of returning the accumulated issues is refuted by the
counterexample). -/
theorem get_sprint_issues_error_returns_empty (src : Nat → PageResp) (e : ReqErr)
    (k fuel : Nat) (hfuel : k < fuel)
    (hpages : ∀ j, j < k → ∃ p, src (50 * j) = .ok p ∧ p.length = 50)
    (herr : src (50 * k) = .err e) :
    get_sprint_issues src fuel =
      some ((List.range (k + 1)).map
        (fun i => { startAt := 50 * i, maxResults := 50, fields := jiraFields }), []) := by
  have h := get_sprint_issues_loop_err src e k fuel 0 [] [] hfuel
    (by simpa using hpages) (by simpa using herr)
  simpa using h

/-- Claim C1 witness: the amended theorem at the concrete erroring source
(one full page, then an error on the request at offset 50). -/
theorem get_sprint_issues_error_returns_empty_witness :
    get_sprint_issues exErrSrc 5 =
      some ((List.range 2).map
        (fun i => { startAt := 50 * i, maxResults := 50, fields := jiraFields }), []) :=
  get_sprint_issues_error_returns_empty exErrSrc { msg := "connection error" } 1 5 (by omega)
    (fun j hj => by
      obtain rfl : j = 0 := by omega
      exact ⟨List.replicate 50 exIssueOpenAbsent, rfl, by simp⟩)
    rfl

/-- Claim C3 (amended): `update_confluence_document` never raises provided
the insights value contains the expected fields (rendering succeeds); on a
transport failure of the GET step or of the PUT step it returns the
structured failure dict `{success: false, message with error detail,
page_id}`. (As stated — including for an insights value lacking expected
fields — the claim fails: a missing key raises `KeyError` past the
boundary, because the `except` clause only catches `RequestException`; see
the counterexample.) -/
theorem update_confluence_document_no_raise :
    (∀ (env : ConfluenceEnv) (today page_id : String) (ins : SprintInsights),
      (∃ body, renderBody today ins = .ok body) →
      ∃ r, (update_confluence_document env today page_id ins).1 = .ok r ∧
        r.page_id = page_id) ∧
    (∀ (env : ConfluenceEnv) (today page_id : String) (ins : SprintInsights) (e : ReqErr),
      env.getPage = .error e →
      (update_confluence_document env today page_id ins).1 =
        .ok { success := false, message := "Error al actualizar el documento: " ++ e.msg,
              page_id := page_id, new_version := none }) ∧
    (∀ (env : ConfluenceEnv) (today page_id : String) (ins : SprintInsights)
        (page : PageData) (body : String) (e : ReqErr),
      env.getPage = .ok page → renderBody today ins = .ok body →
      env.putPage (mkContent page body) = .error e →
      (update_confluence_document env today page_id ins).1 =
        .ok { success := false, message := "Error al actualizar el documento: " ++ e.msg,
              page_id := page_id, new_version := none }) := by
  refine ⟨?_, ?_, ?_⟩
  · intro env today page_id ins hwf
    cases hg : env.getPage with
    | error e =>
      refine ⟨{ success := false, message := "Error al actualizar el documento: " ++ e.msg,
                page_id := page_id, new_version := none }, ?_, rfl⟩
      simp [update_confluence_document, hg]
    | ok page =>
      obtain ⟨body, hr⟩ := hwf
      cases hput : env.putPage (mkContent page body) with
      | error e =>
        refine ⟨{ success := false, message := "Error al actualizar el documento: " ++ e.msg,
                  page_id := page_id, new_version := none }, ?_, rfl⟩
        simp [update_confluence_document, hg, hr, hput]
      | ok u =>
        refine ⟨{ success := true,
                  message := "Documento de Confluence actualizado correctamente",
                  page_id := page_id, new_version := some (page.version + 1) }, ?_, rfl⟩
        simp [update_confluence_document, hg, hr, hput]
  · intro env today page_id ins e hg
    simp [update_confluence_document, hg]
  · intro env today page_id ins page body e hg hr hput
    simp [update_confluence_document, hg, hr, hput]

/-- Claim C3 counterexample: with a successful GET and an insights value
lacking the expected fields, the function raises `KeyError` past its
boundary instead of returning a structured failure. -/
theorem update_confluence_document_raises_cex :
    (update_confluence_document exConfGetOk "2024-06-01" "12345" exInsightsEmpty).1 =
      .error .keyError := by
  rfl

/-- Claim C3 witness: the amended theorem at a well-formed insights value,
for a succeeding transport, a failing GET and a failing PUT. -/
theorem update_confluence_document_no_raise_witness :
    (∃ r, (update_confluence_document exConfGetOk "2024-06-01" "12345" exInsightsFull).1 =
        .ok r ∧ r.page_id = "12345") ∧
    (update_confluence_document exConfGetFail "2024-06-01" "12345" exInsightsFull).1 =
      .ok { success := false, message := "Error al actualizar el documento: getfail",
            page_id := "12345", new_version := none } ∧
    (update_confluence_document exConfPutFail "2024-06-01" "12345" exInsightsFull).1 =
      .ok { success := false, message := "Error al actualizar el documento: putfail",
            page_id := "12345", new_version := none } :=
  ⟨update_confluence_document_no_raise.1 exConfGetOk "2024-06-01" "12345" exInsightsFull
     ⟨_, rfl⟩,
   update_confluence_document_no_raise.2.1 exConfGetFail "2024-06-01" "12345" exInsightsFull
     { msg := "getfail" } rfl,
   update_confluence_document_no_raise.2.2 exConfPutFail "2024-06-01" "12345" exInsightsFull
     exPage4 _ { msg := "putfail" } rfl rfl rfl⟩

/-- Claim C4: every successful update call against a page with fetched
version v issues a PUT whose content carries version v + 1 and reports
`new_version` = v + 1; and when the initial GET fails, the result is the
failure dict with the page id and the request trace contains no PUT. -/
theorem update_confluence_document_version_increment :
    (∀ (env : ConfluenceEnv) (today page_id : String) (ins : SprintInsights)
        (page : PageData) (r : UpdateResult),
      env.getPage = .ok page →
      (update_confluence_document env today page_id ins).1 = .ok r →
      r.success = true →
      r.new_version = some (page.version + 1) ∧
      ∃ c, TraceItem.putReq c ∈ (update_confluence_document env today page_id ins).2 ∧
        c.version = page.version + 1) ∧
    (∀ (env : ConfluenceEnv) (today page_id : String) (ins : SprintInsights) (e : ReqErr),
      env.getPage = .error e →
      update_confluence_document env today page_id ins =
        (.ok { success := false, message := "Error al actualizar el documento: " ++ e.msg,
               page_id := page_id, new_version := none }, [TraceItem.getReq])) := by
  refine ⟨?_, ?_⟩
  · intro env today page_id ins page r hg hres hsucc
    cases hr : renderBody today ins with
    | error pe =>
      have hu : update_confluence_document env today page_id ins = (.error pe, [.getReq]) := by
        simp [update_confluence_document, hg, hr]
      rw [hu] at hres
      exact absurd hres (by simp)
    | ok body =>
      cases hput : env.putPage (mkContent page body) with
      | error e =>
        have hu : update_confluence_document env today page_id ins =
            (.ok { success := false,
                   message := "Error al actualizar el documento: " ++ e.msg,
                   page_id := page_id, new_version := none },
             [.getReq, .putReq (mkContent page body)]) := by
          simp [update_confluence_document, hg, hr, hput]
        rw [hu] at hres
        simp only [Except.ok.injEq] at hres
        rw [← hres] at hsucc
        simp at hsucc
      | ok u =>
        have hu : update_confluence_document env today page_id ins =
            (.ok { success := true,
                   message := "Documento de Confluence actualizado correctamente",
                   page_id := page_id, new_version := some (page.version + 1) },
             [.getReq, .putReq (mkContent page body)]) := by
          simp [update_confluence_document, hg, hr, hput]
        rw [hu] at hres
        simp only [Except.ok.injEq] at hres
        subst hres
        exact ⟨rfl, mkContent page body, by rw [hu]; simp, rfl⟩
  · intro env today page_id ins e hg
    simp [update_confluence_document, hg]

/-- Claim C4 witness: updating the version-4 page succeeds with
`new_version` 5 and a PUT carrying version 5; with a failing GET the
result is the failure dict and the trace is the GET alone. -/
theorem update_confluence_document_version_increment_witness :
    (exSuccessResult.new_version = some (exPage4.version + 1) ∧
      ∃ c, TraceItem.putReq c ∈
          (update_confluence_document exConfGetOk "2024-06-01" "12345" exInsightsFull).2 ∧
        c.version = exPage4.version + 1) ∧
    update_confluence_document exConfGetFail "2024-06-01" "12345" exInsightsFull =
      (.ok { success := false, message := "Error al actualizar el documento: getfail",
             page_id := "12345", new_version := none }, [TraceItem.getReq]) :=
  ⟨update_confluence_document_version_increment.1 exConfGetOk "2024-06-01" "12345"
     exInsightsFull exPage4 exSuccessResult rfl rfl rfl,
   update_confluence_document_version_increment.2 exConfGetFail "2024-06-01" "12345"
     exInsightsFull { msg := "getfail" } rfl⟩

/-- Claim C9 (amended): on `/mcp/execute`, a body whose name is missing
yields 400 `invalid_request` (an empty-string name is treated the same
way, because the code tests Python falsiness — this is where the claim as
stated fails, see the counterexample: an empty name matches neither tool
but is answered 400 `invalid_request`, not 404 `unknown_tool`); a known
tool name with a missing required input field yields 400 `invalid_input`;
a nonempty tool name matching neither tool yields 404 `unknown_tool`; and
a `get_sprint_info` call whose sprint fetch fails yields 404
`resource_not_found`. -/
theorem execute_tool_error_codes :
    (∀ (env : ServerEnv) (fuel : Nat) (req : McpRequest), req.name = none →
      execute_tool env fuel req =
        some (400, .errorResp "invalid_request" "Se requiere el nombre de la herramienta")) ∧
    (∀ (env : ServerEnv) (fuel : Nat) (req : McpRequest), req.name = some "" →
      execute_tool env fuel req =
        some (400, .errorResp "invalid_request" "Se requiere el nombre de la herramienta")) ∧
    (∀ (env : ServerEnv) (fuel : Nat) (req : McpRequest),
      req.name = some "get_sprint_info" →
      (req.input.getD emptyInput).sprint_id = none →
      execute_tool env fuel req =
        some (400, .errorResp "invalid_input" "Se requiere el ID del sprint")) ∧
    (∀ (env : ServerEnv) (fuel : Nat) (req : McpRequest),
      req.name = some "update_confluence_page" →
      ((req.input.getD emptyInput).sprint_id = none ∨
       (req.input.getD emptyInput).confluence_page_id = none ∨
       (req.input.getD emptyInput).content = none) →
      execute_tool env fuel req =
        some (400, .errorResp "invalid_input"
          "Se requieren sprint_id, confluence_page_id y content")) ∧
    (∀ (env : ServerEnv) (fuel : Nat) (req : McpRequest) (n : String),
      req.name = some n → n ≠ "" → n ≠ "get_sprint_info" → n ≠ "update_confluence_page" →
      execute_tool env fuel req =
        some (404, .errorResp "unknown_tool" ("Herramienta desconocida: " ++ n))) ∧
    (∀ (env : ServerEnv) (fuel : Nat) (req : McpRequest) (sid : String),
      req.name = some "get_sprint_info" →
      (req.input.getD emptyInput).sprint_id = some sid → sid ≠ "" →
      env.sprint_data = none →
      execute_tool env fuel req =
        some (404, .errorResp "resource_not_found"
          "No se pudo obtener la información del sprint")) := by
  refine ⟨?_, ?_, ?_, ?_, ?_, ?_⟩
  · intro env fuel req hname
    simp [execute_tool, hname]
  · intro env fuel req hname
    simp [execute_tool, hname]
  · intro env fuel req hname hsid
    simp [execute_tool, hname, hsid]
  · intro env fuel req hname hmiss
    rcases hmiss with h | h | h
    · simp [execute_tool, hname, h]
    · cases hsid : (req.input.getD emptyInput).sprint_id with
      | none => simp [execute_tool, hname, hsid]
      | some sid => simp [execute_tool, hname, hsid, h]
    · cases hsid : (req.input.getD emptyInput).sprint_id with
      | none => simp [execute_tool, hname, hsid]
      | some sid =>
        cases hpid : (req.input.getD emptyInput).confluence_page_id with
        | none => simp [execute_tool, hname, hsid, hpid]
        | some pid => simp [execute_tool, hname, hsid, hpid, h]
  · intro env fuel req n hname hne1 hne2 hne3
    simp [execute_tool, hname, hne1, hne2, hne3]
  · intro env fuel req sid hname hsid hne hdata
    simp [execute_tool, hname, hsid, hne, hdata]

/-- Claim C9 witness: the amended theorem at one concrete request per
error code. -/
theorem execute_tool_error_codes_witness :
    execute_tool exEnvMin 1 { name := none, input := none } =
      some (400, .errorResp "invalid_request" "Se requiere el nombre de la herramienta") ∧
    execute_tool exEnvMin 1 { name := some "get_sprint_info", input := none } =
      some (400, .errorResp "invalid_input" "Se requiere el ID del sprint") ∧
    execute_tool exEnvMin 1
        { name := some "update_confluence_page",
          input := some { sprint_id := some "7", confluence_page_id := some "12345",
                          content := none } } =
      some (400, .errorResp "invalid_input"
        "Se requieren sprint_id, confluence_page_id y content") ∧
    execute_tool exEnvMin 1 { name := some "foo", input := none } =
      some (404, .errorResp "unknown_tool" ("Herramienta desconocida: " ++ "foo")) ∧
    execute_tool exEnvMin 1
        { name := some "get_sprint_info",
          input := some { sprint_id := some "7", confluence_page_id := none,
                          content := none } } =
      some (404, .errorResp "resource_not_found"
        "No se pudo obtener la información del sprint") :=
  ⟨execute_tool_error_codes.1 exEnvMin 1 _ rfl,
   execute_tool_error_codes.2.2.1 exEnvMin 1 _ rfl rfl,
   execute_tool_error_codes.2.2.2.1 exEnvMin 1 _ rfl (Or.inr (Or.inr rfl)),
   execute_tool_error_codes.2.2.2.2.1 exEnvMin 1 _ "foo" rfl (by decide) (by decide) (by decide),
   execute_tool_error_codes.2.2.2.2.2 exEnvMin 1 _ "7" rfl rfl (by decide) rfl⟩

/-- Claim C9 counterexample: the empty-string tool name matches neither
tool, yet the response is 400 `invalid_request` (the falsy-name check
fires first), not a 404 `unknown_tool` as the claim states. -/
theorem execute_tool_empty_name_cex :
    execute_tool exEnvMin 1 { name := some "", input := none } =
      some (400, .errorResp "invalid_request" "Se requiere el nombre de la herramienta") ∧
    (execute_tool exEnvMin 1 { name := some "", input := none }).map Prod.fst ≠ some 404 := by
  refine ⟨rfl, ?_⟩
  decide
